import Mathlib

/-!
Shallow embedding of src/main.cpp (ModernCppErrorHandling): a railway-oriented
pipeline Load -> Validate -> Process over std::expected, with a closed error
variant and a std::visit dispatcher. Strings are modelled as lists of
characters; the file system as a partial map from paths to contents.
-/

namespace CppEH

/-- Strings of the C++ program, modelled as lists of characters. -/
abbrev Str := List Char

/-- The file system: a path either opens to some content or cannot be opened. -/
abbrev FS := Str → Option Str

/-- Error payload struct ConfigReadError (main.cpp lines 14-16). -/
structure ConfigReadError where
  filename : Str
deriving DecidableEq, Repr

/-- Error payload struct ConfigParseError (main.cpp lines 18-21). -/
structure ConfigParseError where
  line_content : Str
  line_number : Int
deriving DecidableEq, Repr

/-- Error payload struct ValidationError (main.cpp lines 23-26). -/
structure ValidationError where
  field_name : Str
  invalid_value : Str
deriving DecidableEq, Repr

/-- Error payload struct ProcessingError (main.cpp lines 28-31). -/
structure ProcessingError where
  task_name : Str
  details : Str
deriving DecidableEq, Repr

/-- PipelineError = std::variant of the four error structs (main.cpp line 34). -/
inductive PipelineError where
  | read (e : ConfigReadError)
  | parse (e : ConfigParseError)
  | validation (e : ValidationError)
  | processing (e : ProcessingError)
deriving DecidableEq, Repr

/-- Data struct Config (main.cpp lines 46-48). -/
structure Config where
  data : Str
deriving DecidableEq, Repr

/-- Data struct ValidatedData (main.cpp lines 50-52). -/
structure ValidatedData where
  processed_data : Str
deriving DecidableEq, Repr

/-- Data struct Result (main.cpp lines 54-56): the final result code is a C++ int. -/
structure Result where
  final_result_code : Int
deriving DecidableEq, Repr

/-- std::expected of a value or a PipelineError, modelled with Except. -/
abbrev Expected (α : Type) := Except PipelineError α

/-- std::expected::and_then: invoke f on the success value, or return the
stored error untouched without invoking f. -/
def and_then {α β : Type} (x : Expected α) (f : α → Expected β) : Expected β :=
  match x with
  | .ok v => f v
  | .error e => .error e

/-- std::string::find(pat) != npos, i.e. pat occurs as a contiguous substring:
some tail of s starts with pat. -/
def containsSubstr (s pat : Str) : Bool :=
  s.tails.any (fun t => pat.isPrefixOf t)

/-- The sentinel literal "malformed" (main.cpp line 70). -/
def malformedLit : Str := "malformed".toList

/-- The sentinel literal "invalid_field" (main.cpp line 80). -/
def invalidFieldLit : Str := "invalid_field".toList

/-- The literal "contains disallowed value" (main.cpp line 82). -/
def disallowedLit : Str := "contains disallowed value".toList

/-- The literal "Validated: " prepended by ValidateData (main.cpp line 85). -/
def validatedTag : Str := "Validated: ".toList

/-- The literal "Data Processing" (main.cpp line 92). -/
def taskNameLit : Str := "Data Processing".toList

/-- The literal "Input data too short for task" (main.cpp line 92). -/
def tooShortLit : Str := "Input data too short for task".toList

/-- LoadConfig (main.cpp lines 59-76): fail with ConfigReadError if the file
cannot be opened; fail with ConfigParseError {"malformed", 1} if the content is
empty or contains "malformed"; otherwise succeed with Config holding the text. -/
def LoadConfig (fs : FS) (filename : Str) : Expected Config :=
  match fs filename with
  | none => .error (.read { filename := filename })
  | some content =>
    if content.isEmpty || containsSubstr content malformedLit then
      .error (.parse { line_content := malformedLit, line_number := 1 })
    else
      .ok { data := content }

/-- ValidateData (main.cpp lines 78-86): fail with ValidationError if the text
contains "invalid_field"; otherwise succeed with "Validated: " + data. -/
def ValidateData (config : Config) : Expected ValidatedData :=
  if containsSubstr config.data invalidFieldLit then
    .error (.validation { field_name := invalidFieldLit, invalid_value := disallowedLit })
  else
    .ok { processed_data := validatedTag ++ config.data }

/-- ProcessData (main.cpp lines 88-96): fail with ProcessingError if the text
length is strictly less than 10; otherwise succeed with the length as code. -/
def ProcessData (d : ValidatedData) : Expected Result :=
  if d.processed_data.length < 10 then
    .error (.processing { task_name := taskNameLit, details := tooShortLit })
  else
    .ok { final_result_code := Int.ofNat d.processed_data.length }

/-- call_pipeline (main.cpp lines 133-137): LoadConfig then and_then ValidateData
then and_then ProcessData. -/
def call_pipeline (fs : FS) (configfile : Str) : Expected Result :=
  and_then (and_then (LoadConfig fs configfile) ValidateData) ProcessData

/-- The lambdas of the Overloaded visitor in handle_pipeline_result
(main.cpp lines 104-128): four kind-specific arms plus the generic fallback,
and the success branch of the surrounding if. -/
inductive Arm where
  | successArm
  | readArm
  | parseArm
  | validationArm
  | processingArm
  | fallbackArm
deriving DecidableEq, Repr

/-- std::visit over the Overloaded set (main.cpp lines 104-128): for each of
the four variant alternatives, overload resolution selects the kind-specific
lambda (an exact-type match beats the generic auto fallback); the pair records
the arm selected and the diagnostic text it writes. -/
def visitError (e : PipelineError) : Arm × Str :=
  match e with
  | .read e =>
    (.readArm, "Configuration Read Error: Could not open file '".toList
      ++ e.filename ++ "'".toList)
  | .parse e =>
    (.parseArm, "Configuration Parse Error: Malformed content at line ".toList
      ++ (toString e.line_number).toList ++ " (Context: '".toList
      ++ e.line_content ++ "')".toList)
  | .validation e =>
    (.validationArm, "Data Validation Error: Field '".toList ++ e.field_name
      ++ "' has invalid value '".toList ++ e.invalid_value ++ "'".toList)
  | .processing e =>
    (.processingArm, "Data Processing Error: Task '".toList ++ e.task_name
      ++ "' failed. Details: ".toList ++ e.details)

/-- The message of the fallback lambda (main.cpp line 126), never selected. -/
def fallbackMsg : Str := "An unexpected error type was encountered.".toList

/-- handle_pipeline_result (main.cpp lines 99-130): on success report the
code, on failure dispatch the error through the visitor. -/
def handle_pipeline_result (final_result : Expected Result) : Arm × Str :=
  match final_result with
  | .ok r =>
    (.successArm, "Pipeline Succeeded! Final Result Code: ".toList
      ++ (toString r.final_result_code).toList)
  | .error e => visitError e

/-- Whether a terminal result is a ProcessingError failure. -/
def isProcessingError (r : Expected Result) : Bool :=
  match r with
  | .error (.processing _) => true
  | _ => false

/-- A file system holding no file at all. -/
def fsEmpty : FS := fun _ => none

/-- A one-file file system: the given path opens to the given content. -/
def fsSingle (path content : Str) : FS :=
  fun p => if p = path then some content else none

/-- The executable substring search agrees with the mathematical notion of a
contiguous substring (list infix), as std::string::find does. -/
theorem containsSubstr_iff (s pat : Str) : containsSubstr s pat = true ↔ pat <:+: s := by
  unfold containsSubstr
  rw [List.any_eq_true]
  constructor
  · rintro ⟨t, ht, hp⟩
    rw [List.mem_tails] at ht
    rw [List.isPrefixOf_iff_prefix] at hp
    exact List.infix_iff_prefix_suffix.mpr ⟨t, hp, ht⟩
  · intro h
    obtain ⟨t, hp, hs⟩ := List.infix_iff_prefix_suffix.mp h
    exact ⟨t, (List.mem_tails _ _).mpr hs, List.isPrefixOf_iff_prefix.mpr hp⟩

/-- The substring search returns false exactly when the pattern is not an infix. -/
theorem containsSubstr_eq_false (s pat : Str) (h : ¬ pat <:+: s) :
    containsSubstr s pat = false :=
  Bool.eq_false_iff.mpr (fun hh => h ((containsSubstr_iff s pat).mp hh))

/-- C1: a Result already in the failure state passes through the chaining
combinator untouched for every stage function f (the outcome does not depend
on f, so f is never invoked), and in the composed pipeline a failure of Load,
or of Validate after a successful Load, is the terminal Result unchanged. -/
theorem chain_short_circuits :
    (∀ (α β : Type) (e : PipelineError) (f g : α → Expected β),
      and_then (Except.error e) f = Except.error e ∧
      and_then (Except.error e) f = and_then (Except.error e) g) ∧
    (∀ (fs : FS) (p : Str) (e : PipelineError),
      LoadConfig fs p = Except.error e → call_pipeline fs p = Except.error e) ∧
    (∀ (fs : FS) (p : Str) (c : Config) (e : PipelineError),
      LoadConfig fs p = Except.ok c → ValidateData c = Except.error e →
      call_pipeline fs p = Except.error e) := by
  refine ⟨fun α β e f g => ⟨rfl, rfl⟩, ?_, ?_⟩
  · intro fs p e h
    unfold call_pipeline
    rw [h]
    rfl
  · intro fs p c e h1 h2
    unfold call_pipeline
    rw [h1]
    show and_then (ValidateData c) ProcessData = Except.error e
    rw [h2]
    rfl

/-- C1 witness: a concrete failing Load short-circuits the whole pipeline. -/
theorem chain_short_circuits_w :
    call_pipeline fsEmpty "p.txt".toList
      = Except.error (.read { filename := "p.txt".toList }) :=
  chain_short_circuits.2.1 fsEmpty "p.txt".toList _ rfl

/-- C2: for every path the file system cannot open, Load fails with
ConfigReadError holding exactly the requested path, and so does the whole
pipeline invoked on that path. -/
theorem load_nonexistent_read_error :
    ∀ (fs : FS) (path : Str), fs path = none →
      LoadConfig fs path = Except.error (.read { filename := path }) ∧
      call_pipeline fs path = Except.error (.read { filename := path }) := by
  intro fs path h
  have hl : LoadConfig fs path = Except.error (.read { filename := path }) := by
    unfold LoadConfig
    rw [h]
  refine ⟨hl, ?_⟩
  unfold call_pipeline
  rw [hl]
  rfl

/-- C2 witness: the pipeline on a missing file fails with that path. -/
theorem load_nonexistent_read_error_w :
    call_pipeline fsEmpty "this_file_should_not_exist.txt".toList
      = Except.error (.read { filename := "this_file_should_not_exist.txt".toList }) :=
  (load_nonexistent_read_error fsEmpty "this_file_should_not_exist.txt".toList rfl).2

/-- C3: for every readable source, Load fails with ConfigParseError
holding the excerpt "malformed" and position 1 when the content is empty or
contains the substring "malformed", and otherwise succeeds with a Config
holding the raw text. -/
theorem load_parse_behavior :
    ∀ (fs : FS) (path content : Str), fs path = some content →
      ((content = [] ∨ malformedLit <:+: content) →
        LoadConfig fs path
          = Except.error (.parse { line_content := malformedLit, line_number := 1 })) ∧
      ((content ≠ [] ∧ ¬ malformedLit <:+: content) →
        LoadConfig fs path = Except.ok { data := content }) := by
  intro fs path content h
  constructor
  · intro hc
    have hb : (content.isEmpty || containsSubstr content malformedLit) = true := by
      rcases hc with hc | hc
      · subst hc
        rfl
      · simp [(containsSubstr_iff content malformedLit).mpr hc]
    simp [LoadConfig, h, hb]
  · intro hc
    have h1 : content.isEmpty = false := by
      cases content with
      | nil => exact absurd rfl hc.1
      | cons a l => rfl
    have h2 : containsSubstr content malformedLit = false :=
      containsSubstr_eq_false content malformedLit hc.2
    simp [LoadConfig, h, h1, h2]

/-- C3 witness: a file holding "malformed content" loads to ConfigParseError. -/
theorem load_parse_behavior_w :
    LoadConfig (fsSingle "m.txt".toList "malformed content".toList) "m.txt".toList
      = Except.error (.parse { line_content := malformedLit, line_number := 1 }) :=
  (load_parse_behavior (fsSingle "m.txt".toList "malformed content".toList)
      "m.txt".toList "malformed content".toList rfl).1
    (Or.inr ((containsSubstr_iff "malformed content".toList malformedLit).mp rfl))

/-- C4: Validate fails with ValidationError holding field name "invalid_field"
and value "contains disallowed value" exactly when the Config text contains
the substring "invalid_field", and otherwise succeeds with a ValidatedData
holding "Validated: " prepended to the raw text. -/
theorem validate_behavior :
    ∀ (config : Config),
      (invalidFieldLit <:+: config.data →
        ValidateData config = Except.error
          (.validation { field_name := invalidFieldLit, invalid_value := disallowedLit })) ∧
      (¬ invalidFieldLit <:+: config.data →
        ValidateData config = Except.ok { processed_data := validatedTag ++ config.data }) ∧
      (ValidateData config = Except.error
          (.validation { field_name := invalidFieldLit, invalid_value := disallowedLit }) →
        invalidFieldLit <:+: config.data) := by
  intro config
  refine ⟨?_, ?_, ?_⟩
  · intro hc
    simp [ValidateData, (containsSubstr_iff config.data invalidFieldLit).mpr hc]
  · intro hc
    simp [ValidateData, containsSubstr_eq_false config.data invalidFieldLit hc]
  · intro heq
    by_contra hc
    have := containsSubstr_eq_false config.data invalidFieldLit hc
    simp [ValidateData, this] at heq

/-- C4 witness: a Config whose text embeds "invalid_field" fails validation. -/
theorem validate_behavior_w :
    ValidateData { data := "valid_data\ninvalid_field".toList }
      = Except.error
          (.validation { field_name := invalidFieldLit, invalid_value := disallowedLit }) :=
  (validate_behavior { data := "valid_data\ninvalid_field".toList }).1
    ((containsSubstr_iff "valid_data\ninvalid_field".toList invalidFieldLit).mp rfl)

/-- C5: Process fails with ProcessingError holding task "Data Processing" and
detail "Input data too short for task" exactly when the validated text length
is strictly below 10, and otherwise succeeds with the length as result code. -/
theorem process_behavior :
    ∀ (d : ValidatedData),
      (d.processed_data.length < 10 →
        ProcessData d = Except.error
          (.processing { task_name := taskNameLit, details := tooShortLit })) ∧
      (10 ≤ d.processed_data.length →
        ProcessData d = Except.ok { final_result_code := Int.ofNat d.processed_data.length }) ∧
      (ProcessData d = Except.error
          (.processing { task_name := taskNameLit, details := tooShortLit }) →
        d.processed_data.length < 10) := by
  intro d
  refine ⟨?_, ?_, ?_⟩
  · intro hlt
    simp [ProcessData, hlt]
  · intro hge
    simp [ProcessData, Nat.not_lt.mpr hge]
  · intro heq
    by_contra hge
    simp [ProcessData, hge] at heq

/-- C5 witness: a four-character validated text fails processing. -/
theorem process_behavior_w :
    ProcessData { processed_data := "tiny".toList }
      = Except.error (.processing { task_name := taskNameLit, details := tooShortLit }) :=
  (process_behavior { processed_data := "tiny".toList }).1 (by decide)

/-- C6 counterexample: the fully empty post-prefix payload does NOT trigger
ProcessingError: processing the bare "Validated: " prefix (length 11) succeeds
with code 11, and end-to-end a 5-character payload "short" (post-prefix length
below 10) also succeeds, with code 16, not a ProcessingError. -/
theorem process_validated_short_cex :
    ProcessData { processed_data := validatedTag }
        = Except.ok { final_result_code := 11 } ∧
    call_pipeline (fsSingle "short_data_config.txt".toList "short".toList)
        "short_data_config.txt".toList
      = Except.ok { final_result_code := 16 } :=
  ⟨rfl, rfl⟩

/-- C6 amended: a ValidatedData of total length strictly below 10 yields
ProcessingError, but the 10-character threshold counts the 11-character
"Validated: " prefix, so no post-prefix payload — not even the empty one —
can trigger this failure through the fixed prefix: processing prefixed text
always succeeds with code 11 plus the payload length. -/
theorem process_validated_never_short :
    (∀ (payload : Str),
      ProcessData { processed_data := validatedTag ++ payload }
        = Except.ok { final_result_code := Int.ofNat (validatedTag.length + payload.length) }) ∧
    (∀ (d : ValidatedData), d.processed_data.length < 10 →
      ProcessData d = Except.error
        (.processing { task_name := taskNameLit, details := tooShortLit })) := by
  constructor
  · intro payload
    have h10 : ¬ ((validatedTag ++ payload).length < 10) := by
      rw [List.length_append]
      have hv : validatedTag.length = 11 := rfl
      omega
    simp [ProcessData, h10, List.length_append]
    have hv : validatedTag.length = 11 := rfl
    omega
  · intro d hlt
    simp [ProcessData, hlt]

/-- C6 amended witness: a short unprefixed text does fail processing. -/
theorem process_validated_never_short_w :
    ProcessData { processed_data := "short".toList }
      = Except.error (.processing { task_name := taskNameLit, details := tooShortLit }) :=
  process_validated_never_short.2 { processed_data := "short".toList } (by decide)

/-- C7: for every source whose content is "valid_data_content", the pipeline
succeeds and the Outcome code is 29, the length of
"Validated: valid_data_content". -/
theorem pipeline_valid_content :
    ∀ (fs : FS) (path : Str), fs path = some "valid_data_content".toList →
      call_pipeline fs path = Except.ok { final_result_code := 29 } := by
  intro fs path h
  unfold call_pipeline LoadConfig
  rw [h]
  rfl

/-- C7 witness: the concrete valid-config file produces code 29. -/
theorem pipeline_valid_content_w :
    call_pipeline (fsSingle "valid_config.txt".toList "valid_data_content".toList)
        "valid_config.txt".toList
      = Except.ok { final_result_code := 29 } :=
  pipeline_valid_content
    (fsSingle "valid_config.txt".toList "valid_data_content".toList)
    "valid_config.txt".toList rfl

/-- C8: the pipeline is deterministic: two runs on identical inputs (the same
file system and the same path) yield structurally equal terminal Results. -/
theorem pipeline_deterministic :
    ∀ (fs1 fs2 : FS) (p1 p2 : Str), fs1 = fs2 → p1 = p2 →
      call_pipeline fs1 p1 = call_pipeline fs2 p2 := by
  intro fs1 fs2 p1 p2 h1 h2
  rw [h1, h2]

/-- C8 witness: two runs on the empty file system and an equal path agree. -/
theorem pipeline_deterministic_w :
    call_pipeline fsEmpty "a.txt".toList = call_pipeline fsEmpty "a.txt".toList :=
  pipeline_deterministic fsEmpty fsEmpty "a.txt".toList "a.txt".toList rfl rfl

/-- C9: on every constructible error the dispatcher selects one of the four
kind-specific arms; the generic fallback arm is never selected, so the
fallback branch is dead code for the closed taxonomy. -/
theorem dispatcher_fallback_dead :
    ∀ (e : PipelineError),
      (handle_pipeline_result (Except.error e)).1 = (visitError e).1 ∧
      (visitError e).1
        ∈ [Arm.readArm, Arm.parseArm, Arm.validationArm, Arm.processingArm] := by
  intro e
  refine ⟨rfl, ?_⟩
  cases e <;> simp [visitError]

/-- C10: for every file system and every path, the terminal Result of the
composed pipeline is never a ProcessingError: any content surviving Load is
non-empty, so the validated text is at least 12 characters long and the
strictly-below-10 processing check never fires. -/
theorem pipeline_never_processing_error :
    ∀ (fs : FS) (path : Str), isProcessingError (call_pipeline fs path) = false := by
  intro fs path
  unfold call_pipeline
  cases hfs : fs path with
  | none =>
    have hl : LoadConfig fs path = Except.error (.read { filename := path }) := by
      unfold LoadConfig
      rw [hfs]
    rw [hl]
    rfl
  | some content =>
    by_cases hb : (content.isEmpty || containsSubstr content malformedLit) = true
    · have hl : LoadConfig fs path
          = Except.error (.parse { line_content := malformedLit, line_number := 1 }) := by
        simp [LoadConfig, hfs, hb]
      rw [hl]
      rfl
    · have hl : LoadConfig fs path = Except.ok { data := content } := by
        simp [LoadConfig, hfs, hb]
      rw [hl]
      by_cases hv : containsSubstr content invalidFieldLit = true
      · have hvd : ValidateData { data := content }
            = Except.error
                (.validation { field_name := invalidFieldLit, invalid_value := disallowedLit }) := by
          simp [ValidateData, hv]
        simp [and_then, hvd, isProcessingError]
      · have hvd : ValidateData { data := content }
            = Except.ok { processed_data := validatedTag ++ content } := by
          simp [ValidateData, hv]
        have h10 : ¬ ((validatedTag ++ content).length < 10) := by
          rw [List.length_append]
          have hvl : validatedTag.length = 11 := rfl
          omega
        have hpd : ProcessData { processed_data := validatedTag ++ content }
            = Except.ok { final_result_code := Int.ofNat (validatedTag ++ content).length } := by
          simp [ProcessData, h10, List.length_append]
          have hvl : validatedTag.length = 11 := rfl
          omega
        simp [and_then, hvd, hpd, isProcessingError]

end CppEH
